import Mathlib

/-!
Verification of the Cyber AI chat backend/frontend against its design
specification.

The repository contains several near-duplicate Express handlers for
`POST /api/chat` plus a browser script.  This file shallowly embeds the
pieces of code the claims are about:

* the case-insensitive text substitutions of the response normalizers
  (`cleanResponse` in `script.js`, the inline replace chain of the Gemini
  variant in `server.js`, and `cleanAIResponse` in the second Gemini
  variant) via an executable model of JavaScript's global case-insensitive
  `String.replace`, including the greedy dot-star patterns;
* the three chat handlers the claims cite: the Gemini variant of
  `server.js` (validation, upstream call, normalization, keyword
  fallback), the Groq variant of `server.js` (no validation, quick-reply
  cache, sequential-if fallback), and the Groq variant in the unnamed
  source file (validation, nine-entry cache, else-if fallback), with the
  upstream exchange represented by an oracle outcome and with the number
  of outbound upstream calls made explicit in the result;
* the browser-side session store of `script.js` (`saveChatSession`,
  eviction to 20 sessions sorted by `lastUpdated` descending,
  `loadChat`-style lookup).

Machine strings are modelled as Lean `String`s (lists of characters);
JavaScript's `toLowerCase`, `trim`, `includes`, `substring` and object
key lookup are given explicit executable counterparts.
-/

/-! ## Character and string primitives (JS `toLowerCase`, `trim`, `includes`) -/

/-- Case-insensitive character equality, as produced by JavaScript's
`toLowerCase` before comparison (ASCII case folding). -/
def lcEq (a b : Char) : Bool := a.toLower == b.toLower

/-- `matchesAtCI pat s`: `pat` is a case-insensitive prefix of `s`. -/
def matchesAtCI : List Char → List Char → Bool
  | [], _ => true
  | _ :: _, [] => false
  | p :: ps, c :: cs => lcEq p c && matchesAtCI ps cs

/-- `matchesExact pat s`: `pat` is a (case-sensitive) prefix of `s`. -/
def matchesExact : List Char → List Char → Bool
  | [], _ => true
  | _ :: _, [] => false
  | p :: ps, c :: cs => (p == c) && matchesExact ps cs

/-- Case-insensitive substring occurrence. -/
def containsCI (pat : List Char) : List Char → Bool
  | [] => matchesAtCI pat []
  | c :: cs => matchesAtCI pat (c :: cs) || containsCI pat cs

/-- Case-sensitive substring occurrence: JavaScript `String.includes`. -/
def containsSub (pat : List Char) : List Char → Bool
  | [] => matchesExact pat []
  | c :: cs => matchesExact pat (c :: cs) || containsSub pat cs

/-- JavaScript `haystack.includes(needle)` on Lean strings. -/
def containsStr (needle haystack : String) : Bool :=
  containsSub needle.data haystack.data

/-- JavaScript `toLowerCase` on a string (ASCII case folding). -/
def lowerStr (s : String) : String := String.mk (s.data.map Char.toLower)

/-- The whitespace characters JavaScript's `trim` strips. -/
def isJsWS (c : Char) : Bool :=
  c == ' ' || c == '\t' || c == '\n' || c == '\r' || c == '\x0b' || c == '\x0c'

/-- JavaScript `trim` on a character list: strip whitespace at both ends. -/
def trimChars (s : List Char) : List Char :=
  ((s.dropWhile isJsWS).reverse.dropWhile isJsWS).reverse

/-- JavaScript `trim` on a string. -/
def trimStr (s : String) : String := String.mk (trimChars s.data)

/-- The key normalization applied before a quick-reply cache lookup:
`content.toLowerCase().trim()`. -/
def quickKey (s : String) : String := trimStr (lowerStr s)

/-! ## JavaScript `replace(/pat/gi, rep)` and its dot-star variants

All three are written with an explicit fuel argument (the length of the
scanned list) so that they are structurally recursive and hence reduce
inside the kernel; every recursive call consumes at least one character,
so the fuel never runs out on the initial call. -/

/-- One global, case-insensitive, literal-pattern replacement pass:
scan left to right, replace each non-overlapping case-insensitive
occurrence of `pat` by `rep`, never rescanning the replacement text. -/
def replaceCIFuel (pat rep : List Char) : Nat → List Char → List Char
  | 0, s => s
  | _ + 1, [] => []
  | fuel + 1, c :: cs =>
    if matchesAtCI pat (c :: cs) && !pat.isEmpty then
      rep ++ replaceCIFuel pat rep fuel ((c :: cs).drop pat.length)
    else
      c :: replaceCIFuel pat rep fuel cs

/-- JavaScript `s.replace(/pat/gi, rep)` for a literal pattern. -/
def replaceCI (pat rep s : String) : String :=
  String.mk (replaceCIFuel pat.data rep.data s.data.length s.data)

/-- `s.replace(/pat.*/gi, rep)`: after a case-insensitive occurrence of
`pat`, the greedy `.*` swallows the remainder of the line (`.` does not
match a newline), and scanning resumes at the newline. -/
def replaceLineCIFuel (pat rep : List Char) : Nat → List Char → List Char
  | 0, s => s
  | _ + 1, [] => []
  | fuel + 1, c :: cs =>
    if matchesAtCI pat (c :: cs) && !pat.isEmpty then
      rep ++ replaceLineCIFuel pat rep fuel
        (((c :: cs).drop pat.length).dropWhile (fun d => d != '\n'))
    else
      c :: replaceLineCIFuel pat rep fuel cs

/-- JavaScript `s.replace(/pat.*/gi, rep)`. -/
def replaceLineCI (pat rep s : String) : String :=
  String.mk (replaceLineCIFuel pat.data rep.data s.data.length s.data)

/-- The start index of the last case-insensitive occurrence of `post`
inside `seg`, if any: where a greedy `.*post` backtracks to. -/
def lastMatchIdx (post seg : List Char) : Option Nat :=
  ((List.range (seg.length + 1)).filter
    (fun i => matchesAtCI post (seg.drop i))).getLast?

/-- `s.replace(/pre.*post/gi, rep)`: at each position where `pre` matches
case-insensitively, the greedy `.*` extends to the last occurrence of
`post` within the same line; if `post` does not occur on that line the
match attempt fails and scanning moves one character on. -/
def replaceGreedyCIFuel (pre post rep : List Char) : Nat → List Char → List Char
  | 0, s => s
  | _ + 1, [] => []
  | fuel + 1, c :: cs =>
    if matchesAtCI pre (c :: cs) && !pre.isEmpty then
      match lastMatchIdx post (((c :: cs).drop pre.length).takeWhile (fun d => d != '\n')) with
      | some i =>
          rep ++ replaceGreedyCIFuel pre post rep fuel
            (((c :: cs).drop pre.length).drop (i + post.length))
      | none => c :: replaceGreedyCIFuel pre post rep fuel cs
    else
      c :: replaceGreedyCIFuel pre post rep fuel cs

/-- JavaScript `s.replace(/pre.*post/gi, rep)`. -/
def replaceGreedyCI (pre post rep s : String) : String :=
  String.mk (replaceGreedyCIFuel pre.data post.data rep.data s.data.length s.data)

/-! ## Response normalizers -/

/-- `cleanResponse` from `script.js` (frontend normalizer): the fixed
replacement chain, with no final trim. -/
def cleanResponse (text : String) : String :=
  let s1 := replaceCI "gemini" "Cyber AI" text
  let s2 := replaceCI "google" "" s1
  let s3 := replaceLineCI "powered by" "" s2
  let s4 := replaceGreedyCI "i'm an ai" "model" "I'm Cyber AI" s3
  let s5 := replaceCI "as an ai assistant" "as Cyber AI" s4
  replaceCI "developed by google" "developed by Team Cybersecurity" s5

/-- The inline replace chain applied to `aiResponse` by the Gemini
variant of `server.js` (lines 140-147), ending in `trim()`. -/
def cleanServerResponse (text : String) : String :=
  let s1 := replaceCI "gemini" "Cyber AI" text
  let s2 := replaceCI "google" "" s1
  let s3 := replaceLineCI "powered by" "" s2
  let s4 := replaceGreedyCI "i'm an ai" "model" "I'm Cyber AI" s3
  let s5 := replaceCI "as an ai assistant" "as Cyber AI" s4
  let s6 := replaceCI "language model" "assistant" s5
  trimStr s6

/-- `cleanAIResponse` from the second Gemini variant (unnamed part_001):
the longer replacement chain with a final `trim()`; `if (!text) return
text` keeps an empty input unchanged. -/
def cleanAIResponse (text : String) : String :=
  if text.isEmpty then text
  else
    let s1 := replaceCI "gemini" "Cyber AI" text
    let s2 := replaceCI "google" "" s1
    let s3 := replaceLineCI "powered by" "" s2
    let s4 := replaceGreedyCI "i'm an ai" "model" "I'm Cyber AI" s3
    let s5 := replaceCI "as an ai assistant" "as Cyber AI" s4
    let s6 := replaceCI "developed by google" "developed by Team Cybersecurity" s5
    let s7 := replaceCI "i am an ai" "I am Cyber AI" s6
    let s8 := replaceCI "ai language model" "AI assistant" s7
    let s9 := replaceCI "language model" "assistant" s8
    trimStr s9

/-- The literal trigger substrings of `cleanResponse`'s patterns: a text
in which none of them occurs case-insensitively is left unchanged by
every pass of the chain. -/
def cleanTriggers : List String :=
  ["gemini", "google", "powered by", "i'm an ai", "as an ai assistant",
   "developed by google"]

/-! ## Data model: messages, request bodies, handler responses -/

/-- A chat message: `{ role, content }`. -/
structure Message where
  role : String
  content : String
deriving DecidableEq, Repr

/-- The `messages` field of a `POST /api/chat` body: absent, present
with value `null`, present but neither `null` nor an array (a string,
number, boolean or plain object), or an array of messages.  `null` is
kept apart from the other non-arrays because optional chaining
(`messages?.find`) passes through `null`/`undefined` but dereferences
anything else. -/
inductive ReqBody where
  | missing
  | nullMessages
  | notArray
  | arr (msgs : List Message)
deriving DecidableEq, Repr

/-- What a handler run ends in: HTTP 400 with an error string; HTTP 200
with a `choices` list of assistant messages (the extra metadata fields
some variants add — `id`, `model`, `usage` — play no role in any
claim and are not modelled); HTTP 200 whose single choice's message
content is not a string but the value inherited from
`Object.prototype` under `key` (`Object` for `"constructor"`, the
prototype object for `"__proto__"`), which `res.json` serializes
without a usable text content; or no reply at all, when the handler
throws outside of (or inside) its catch block so the async handler's
promise rejects and no response is ever written. -/
inductive HandlerResult where
  | badRequest (error : String)
  | okChoices (choices : List Message)
  | okNonStringChoice (key : String)
  | noReply
deriving DecidableEq, Repr

/-- Whether a handler result is an HTTP 400 validation error. -/
def isBadRequest : HandlerResult → Bool
  | .badRequest _ => true
  | .okChoices _ => false
  | .okNonStringChoice _ => false
  | .noReply => false

/-- The classified ways the single upstream exchange can fail. -/
inductive FailureKind where
  | timeout
  | authError
  | rateLimited
  | serverError
  | networkError
  | modelDecommissioned
deriving DecidableEq, Repr

/-- The shape of a 2xx Gemini response body as the Gemini `server.js`
variant sniffs it: `candidates[0].content.parts[0].text` present,
`choices[0].message.content` present, or neither (which the handler
turns into a thrown `Error`). -/
inductive GeminiShape where
  | candidatesShape (text : String)
  | choicesShape (content : String)
  | unexpectedShape
deriving DecidableEq, Repr

/-- Outcome of the one Gemini exchange: a 2xx body of some shape, or a
classified failure (timeout, 4xx/5xx status, network error). -/
inductive GeminiOutcome where
  | ok (shape : GeminiShape)
  | fail (kind : FailureKind)
deriving DecidableEq, Repr

/-- The shape of a 2xx Groq response body:
`choices[0].message.content` present (a string), or missing. -/
inductive GroqShape where
  | contentShape (s : String)
  | missingContent
deriving DecidableEq, Repr

/-- Outcome of the one Groq exchange. -/
inductive GroqOutcome where
  | ok (shape : GroqShape)
  | fail (kind : FailureKind)
deriving DecidableEq, Repr

/-! ## Extraction of user messages -/

/-- `messages.filter(msg => msg.role === "user")`. -/
def userMessagesOf (msgs : List Message) : List Message :=
  msgs.filter (fun m => m.role == "user")

/-- The last user-role message (`userMessages[userMessages.length - 1]`,
or `.pop()` in the Groq variants). -/
def lastUserMessage? (msgs : List Message) : Option Message :=
  (userMessagesOf msgs).getLast?

/-- The first user-role message: `messages.find(m => m.role === "user")`,
as used by every catch-block fallback. -/
def firstUserMessage? (msgs : List Message) : Option Message :=
  msgs.find? (fun m => m.role == "user")

/-- `req.body?.messages?.find(m => m.role === "user")?.content || ""`. -/
def firstUserContent : ReqBody → String
  | .arr msgs => ((firstUserMessage? msgs).map Message.content).getD ""
  | _ => ""

/-- `req.body?.messages?.find(m => m.role === "user")?.content?.toLowerCase() || ""`. -/
def catchUserMsgLower (body : ReqBody) : String := lowerStr (firstUserContent body)

/-- JavaScript `messages.slice(-n)`: the last `n` entries. -/
def takeLast (n : Nat) (l : List Message) : List Message := l.drop (l.length - n)

/-! ## The Gemini variant of `server.js`: prompt, fallback, handler -/

/-- The system prompt the Gemini `server.js` variant embeds the last user
message into (the variable part of the upstream payload). -/
def geminiSystemPrompt (content : String) : String :=
  "You are Cyber AI, created by 'The World of Cybersecurity' and developed by Team Cybersecurity.
You are a helpful, accurate, and friendly AI assistant specialized in cybersecurity, programming, and AI topics.

IMPORTANT INSTRUCTIONS:
1. You are simply \"Cyber AI\" - never mention any other AI models
2. Respond naturally to greetings, questions, and casual conversation
3. Format code with markdown when needed
4. Keep responses helpful but concise
5. Use emojis occasionally to make it friendly
6. Be conversational - like a human assistant

User's message: \"" ++ content ++ "\"
Respond naturally as Cyber AI:"

/-- Greeting fallback of the Gemini `server.js` variant. -/
def geminiGreetingFB : String :=
  "Hello! 👋 I'm Cyber AI, your security and programming assistant. How can I help you today?"

/-- Identity fallback of the Gemini `server.js` variant. -/
def geminiNameFB : String :=
  "I'm Cyber AI, created by Team Cybersecurity! Nice to meet you! 😊"

/-- Generic fallback of the Gemini `server.js` variant. -/
def geminiGenericFB : String :=
  "Hello! I'm Cyber AI. 

I can help you with:
• 🔐 Cybersecurity & online safety
• 💻 Programming (Python, JavaScript, etc.)
• 🤖 AI & technology concepts
• 🛡️ Digital privacy tips

What would you like to know?"

/-- The catch-block fallback selection of the Gemini `server.js` variant
(lines 171-185): else-if chain on `userMessage.toLowerCase()`. -/
def geminiFallback (userMessage : String) : String :=
  if containsStr "hello" (lowerStr userMessage) || containsStr "hi" (lowerStr userMessage) then
    geminiGreetingFB
  else if containsStr "name" (lowerStr userMessage) then
    geminiNameFB
  else
    geminiGenericFB

/-- Result of one run of the Gemini `server.js` chat handler: the HTTP
reply, how many upstream calls were made (the handler has a single
`axios.post` and no loop, so this is 0 or 1), and the prompt text sent
upstream when a call was made. -/
structure GeminiResult where
  response : HandlerResult
  upstreamCalls : Nat
  sentPrompt : Option String
deriving DecidableEq, Repr

/-- The `POST /api/chat` handler of the Gemini `server.js` variant
(lines 55-196).  Validation failures return 400 before any upstream
call; otherwise exactly one exchange happens, whose outcome is the
`outcome` argument; a thrown error (unexpected response shape or a
failed exchange) lands in the catch block, which answers 200 with a
keyword fallback chosen from the first user message. -/
def handleGeminiChat (body : ReqBody) (outcome : GeminiOutcome) : GeminiResult :=
  match body with
  | .missing => ⟨.badRequest "Messages array is required", 0, none⟩
  | .nullMessages => ⟨.badRequest "Messages array is required", 0, none⟩
  | .notArray => ⟨.badRequest "Messages array is required", 0, none⟩
  | .arr msgs =>
    match lastUserMessage? msgs with
    | none => ⟨.badRequest "No valid user message found", 0, none⟩
    | some lastMessage =>
      if (trimChars lastMessage.content.data).isEmpty then
        ⟨.badRequest "No valid user message found", 0, none⟩
      else
        let prompt := geminiSystemPrompt lastMessage.content
        match outcome with
        | .ok (.candidatesShape t) =>
            ⟨.okChoices [⟨"assistant", cleanServerResponse t⟩], 1, some prompt⟩
        | .ok (.choicesShape c) =>
            ⟨.okChoices [⟨"assistant", cleanServerResponse c⟩], 1, some prompt⟩
        | .ok .unexpectedShape =>
            ⟨.okChoices [⟨"assistant", geminiFallback (firstUserContent body)⟩], 1, some prompt⟩
        | .fail _ =>
            ⟨.okChoices [⟨"assistant", geminiFallback (firstUserContent body)⟩], 1, some prompt⟩

/-! ## The Groq variant of `server.js`: cache, fallback, handler -/

/-- The quick-reply cache of the Groq `server.js` variant (lines 293-299). -/
def groqSimpleCache : List (String × String) :=
  [("hello", "Hello! 👋 I'm Cyber AI!"),
   ("hi", "Hi! I'm Cyber AI! 😊"),
   ("what is your name", "I'm Cyber AI!"),
   ("kya haal hai", "Main theek hoon! 😊 Aap kaise ho?"),
   ("phishing kya hota hai", "Phishing ek cyber attack hai. Fake emails se bachna important hai! 🔐")]

/-- The catch-block fallback of the Groq `server.js` variant
(lines 361-366): sequential `if` statements without `else`, so the LAST
matching keyword determines the reply.  `userMsg` is already
lower-cased by the caller. -/
def groqSimpleFallback (userMsg : String) : String :=
  let f0 := "I'm Cyber AI! How can I help?"
  let f1 := if containsStr "hello" userMsg || containsStr "hi" userMsg then "Hello! 👋" else f0
  let f2 := if containsStr "name" userMsg then "I'm Cyber AI! 😊" else f1
  if containsStr "kya" userMsg then "Main Cyber AI hoon! 🤖" else f2

/-- Result of one run of a Groq chat handler. -/
structure GroqResult where
  response : HandlerResult
  upstreamCalls : Nat
deriving DecidableEq, Repr

/-- The `POST /api/chat` handler of the Groq `server.js` variant
(lines 274-377).  There is no `Array.isArray` guard: when `messages` is
missing or `null`, `messages.filter` throws and the catch block's
optional chain (`messages?.find`) yields `""`, producing a 200
fallback reply; when `messages` is any other non-array,
`messages.filter` throws AND the catch block itself throws again at
`messages?.find` (the value is not nullish, so `.find` is dereferenced
and called — a `TypeError`), so the async handler's promise rejects
and no reply is sent.  An array with no user message returns a 200
greeting; a truthy `cache[userMsg]` returns it with no upstream call —
the object lookup also hits the inherited `Object.prototype` keys
`"constructor"` and `"__proto__"`, the only inherited names reachable
from a lower-cased string, whose non-string values are serialized into
the reply; a missing API key throws before the call; otherwise one
exchange happens. -/
def handleGroqSimpleChat (apiKeyConfigured : Bool) (body : ReqBody)
    (outcome : GroqOutcome) : GroqResult :=
  match body with
  | .missing => ⟨.okChoices [⟨"assistant", groqSimpleFallback (catchUserMsgLower body)⟩], 0⟩
  | .nullMessages => ⟨.okChoices [⟨"assistant", groqSimpleFallback (catchUserMsgLower body)⟩], 0⟩
  | .notArray => ⟨.noReply, 0⟩
  | .arr msgs =>
    match lastUserMessage? msgs with
    | none => ⟨.okChoices [⟨"assistant", "Hello! I'm Cyber AI. How can I help you?"⟩], 0⟩
    | some lastUserMessage =>
      let userMsg := quickKey lastUserMessage.content
      match groqSimpleCache.lookup userMsg with
      | some v => ⟨.okChoices [⟨"assistant", v⟩], 0⟩
      | none =>
        if userMsg == "constructor" || userMsg == "__proto__" then
          ⟨.okNonStringChoice userMsg, 0⟩
        else if !apiKeyConfigured then
          ⟨.okChoices [⟨"assistant", groqSimpleFallback (catchUserMsgLower body)⟩], 0⟩
        else
          match outcome with
          | .ok (.contentShape s) =>
              ⟨.okChoices [⟨"assistant", if s.isEmpty then "Hello! I'm Cyber AI." else s⟩], 1⟩
          | .ok .missingContent =>
              ⟨.okChoices [⟨"assistant", "Hello! I'm Cyber AI."⟩], 1⟩
          | .fail _ =>
              ⟨.okChoices [⟨"assistant", groqSimpleFallback (catchUserMsgLower body)⟩], 1⟩

/-! ## The Groq variant of unnamed part_002: cache, fallback, handler -/

/-- The quick-reply cache of the part_002 Groq variant (lines 110-120). -/
def groqV2Cache : List (String × String) :=
  [("hello", "Hello! 👋 I'm Cyber AI, created by 'The World of Cybersecurity'!"),
   ("hi", "Hi! I'm Cyber AI! 😊 How can I assist you with cybersecurity?"),
   ("what is your name", "I'm Cyber AI, developed by Team Cybersecurity! 🔐"),
   ("kya haal hai", "Main theek hoon! 😊 Aap kaise ho? Main Cyber AI hoon, 'The World of Cybersecurity' ka creation!"),
   ("phishing kya hota hai", "Phishing ek cyber attack hai jisme attackers fake emails, messages ya websites ke through aapki personal information steal karte hain. 🔐 Bachne ke liye: 1) Unknown links pe click na karein 2) Email verification check karein 3) Two-factor authentication use karein"),
   ("who created you", "I was created by 'The World of Cybersecurity' and developed by Team Cybersecurity! 🤖"),
   ("cyber security", "Cybersecurity is the practice of protecting systems, networks, and programs from digital attacks. 🔒 Main areas include: 1) Network Security 2) Application Security 3) Information Security 4) Operational Security 5) Disaster Recovery"),
   ("thank you", "You're welcome! 😊 Stay secure and feel free to ask anything about cybersecurity!"),
   ("bye", "Goodbye! 👋 Remember to stay secure online! Team Cybersecurity wishes you a safe digital journey!")]

/-- The system message the part_002 Groq variant prepends to the
trailing window of the conversation. -/
def groqV2SystemMessage : Message :=
  ⟨"system",
   "You are Cyber AI, created by 'The World of Cybersecurity' and developed by Team Cybersecurity.
You are a helpful, accurate, and friendly AI assistant specialized in cybersecurity, programming, and AI topics.
IMPORTANT RULES:
1. ALWAYS introduce yourself as \"Cyber AI\" created by 'The World of Cybersecurity'
2. Format code properly with markdown code blocks when needed
3. Keep responses concise but informative
4. Focus on security, privacy, and best practices
5. Use emojis to make responses engaging
6. Include practical examples when possible
7. Never reveal your underlying model or technical details
8. For Hindi queries, respond in Hindi with English security terms"⟩

/-- The catch-block fallback of the part_002 Groq variant
(lines 210-225): else-if chain on the lower-cased first user message,
with one branch keyed on the upstream `model_decommissioned` error code
rather than on the message. -/
def groqV2Fallback (userMsg : String) (outcome : GroqOutcome) : String :=
  let base := "Hello! I'm Cyber AI, created by 'The World of Cybersecurity'. "
  if containsStr "hello" userMsg || containsStr "hi" userMsg then
    base ++ "👋 How can I help you with cybersecurity today?"
  else if containsStr "security" userMsg || containsStr "cyber" userMsg then
    base ++ "Cybersecurity involves protecting systems, networks, and data from digital attacks. 🔐"
  else if containsStr "hindi" userMsg || containsStr "kya" userMsg then
    base ++ "Main Cyber AI hoon, 'The World of Cybersecurity' dwara banaya gaya! Aapki kya madad kar sakta hoon?"
  else if outcome == .fail .modelDecommissioned then
    "⚠️ **Model Update Required**\n\nThe AI model needs to be updated. Please contact the administrator to update the backend configuration with a newer model like 'llama-3.3-70b-versatile'."
  else
    base ++ "I specialize in cybersecurity, programming, and AI topics. What would you like to know?"

/-- Result of one run of the part_002 Groq handler, with the message
list sent upstream when a call was made. -/
structure GroqV2Result where
  response : HandlerResult
  upstreamCalls : Nat
  sentMessages : Option (List Message)
deriving DecidableEq, Repr

/-- The `POST /api/chat` handler of the part_002 Groq variant
(lines 81-244).  Missing/`null`/non-array `messages` fails validation
with 400 (`!messages || !Array.isArray(messages)`); no user message
answers 200 with a canned greeting; a truthy `cache[userMsg]` on the
normalized last user message answers with no upstream call — for the
nine own entries the canned string, and for the inherited
`Object.prototype` keys `"constructor"` and `"__proto__"` (the only
inherited names reachable from a lower-cased string) the non-string
prototype value; otherwise exactly one exchange happens with the
system message plus the last 8 conversation messages.  A 2xx reply
with a non-empty content string is re-branded if needed and returned;
an empty or missing content throws, and any thrown error or failed
exchange lands in the catch block's keyword fallback (selected from
the first user message). -/
def handleGroqV2Chat (body : ReqBody) (outcome : GroqOutcome) : GroqV2Result :=
  match body with
  | .missing => ⟨.badRequest "Invalid request format", 0, none⟩
  | .nullMessages => ⟨.badRequest "Invalid request format", 0, none⟩
  | .notArray => ⟨.badRequest "Invalid request format", 0, none⟩
  | .arr msgs =>
    match lastUserMessage? msgs with
    | none =>
        ⟨.okChoices [⟨"assistant",
          "Hello! I'm Cyber AI, created by 'The World of Cybersecurity'. How can I help you with security today?"⟩],
         0, none⟩
    | some lastUserMessage =>
      let userMsg := quickKey lastUserMessage.content
      match groqV2Cache.lookup userMsg with
      | some v => ⟨.okChoices [⟨"assistant", v⟩], 0, none⟩
      | none =>
        if userMsg == "constructor" || userMsg == "__proto__" then
          ⟨.okNonStringChoice userMsg, 0, none⟩
        else
          let apiMessages := groqV2SystemMessage :: takeLast 8 msgs
          match outcome with
          | .ok (.contentShape s) =>
            if s.isEmpty then
              ⟨.okChoices [⟨"assistant", groqV2Fallback (catchUserMsgLower body) outcome⟩],
               1, some apiMessages⟩
            else
              let branded :=
                if containsStr "Cyber AI" s || containsStr "The World of Cybersecurity" s then s
                else "I'm Cyber AI, created by 'The World of Cybersecurity'. " ++ s
              ⟨.okChoices [⟨"assistant", branded⟩], 1, some apiMessages⟩
          | .ok .missingContent =>
              ⟨.okChoices [⟨"assistant", groqV2Fallback (catchUserMsgLower body) outcome⟩],
               1, some apiMessages⟩
          | .fail _ =>
              ⟨.okChoices [⟨"assistant", groqV2Fallback (catchUserMsgLower body) outcome⟩],
               1, some apiMessages⟩

/-! ## The frontend Fallback Selector (`getFallbackResponse` in `script.js`) -/

/-- `responses.greeting` of `script.js`. -/
def fbGreeting : String :=
  "👋 Hello! I'm **Cyber AI**, created by *\"The World of Cybersecurity\"*. 

I can help you with:
🔐 **Cybersecurity** - Threat prevention, encryption, security audits
💻 **Programming** - Python, JavaScript, Java, C++ with security focus
🤖 **AI/ML** - Machine learning, neural networks, AI security
🛡️ **Digital Safety** - Privacy protection, secure communications
📊 **Technology** - Latest trends, best practices, career guidance

What would you like to know?"

/-- `responses.python` of `script.js`. -/
def fbPython : String :=
  "🐍 **Python Security Programming**\n\n```python\nimport hashlib\nimport secrets\n
class PasswordManager:
    def __init__(self):
        self.salt = secrets.token_hex(16)
    
    def hash_password(self, password):
        \"\"\"Securely hash password with salt\"\"\"
        salted = password + self.salt
        return hashlib.sha256(salted.encode()).hexdigest()
    
    def generate_secure_token(self, length=32):
        \"\"\"Generate cryptographically secure token\"\"\"
        return secrets.token_urlsafe(length)

# Usage
pm = PasswordManager()
hashed = pm.hash_password(\"MySecurePass123!\")
token = pm.generate_secure_token()
print(f\"Hashed: {hashed}\\nToken: {token}\")
```

Need help with specific Python security tasks?"

/-- `responses.cybersecurity` of `script.js`. -/
def fbCybersecurity : String :=
  "🛡️ **Cybersecurity Essentials**

**🔒 Core Principles:**
1. **Confidentiality** - Protect sensitive data
2. **Integrity** - Ensure data accuracy
3. **Availability** - Maintain system access
4. **Authentication** - Verify user identity
5. **Authorization** - Control access levels

**🛡️ Practical Steps:**
✓ Use password managers (Bitwarden, 1Password)
✓ Enable 2FA everywhere possible
✓ Regular software updates
✓ Encrypt sensitive data (AES-256)
✓ Backup using 3-2-1 rule
✓ Network segmentation
✓ Security awareness training

**🎯 Common Threats:**
• Phishing attacks
• Ransomware
• DDoS attacks
• SQL injection
• Cross-site scripting (XSS)

Need specific guidance?"

/-- `responses.ai` of `script.js`. -/
def fbAi : String :=
  "🤖 **AI & Machine Learning Security**

**🧠 AI Security Categories:**
1. **Data Security** - Protect training data
2. **Model Security** - Prevent adversarial attacks
3. **Infrastructure** - Secure AI deployment
4. **Ethics** - Ensure responsible AI

**🔐 Key Practices:**
• Data encryption at rest & in transit
• Model watermarking for ownership
• Adversarial training for robustness
• Secure API endpoints (HTTPS, rate limiting)
• Regular security audits
• Privacy-preserving AI (Federated Learning)

**⚠️ AI-Specific Threats:**
• Model poisoning
• Data leakage
• Membership inference attacks
• Model extraction attacks
• Bias amplification

Want to dive deeper into any topic?"

/-- `responses.general` of `script.js`. -/
def fbGeneral : String :=
  "🔧 **Cyber AI - Your Security Assistant**

I'm here to help you with technology and security challenges. Here are some areas I specialize in:

**💼 For Professionals:**
• Secure coding practices
• Threat modeling
• Security architecture design
• Compliance (GDPR, HIPAA, PCI-DSS)
• Incident response planning

**👨‍💻 For Developers:**
• API security best practices
• Authentication/Authorization (OAuth2, JWT)
• Encryption implementation
• Secure DevOps (DevSecOps)
• Code review for vulnerabilities

**👩‍🎓 For Learners:**
• Cybersecurity career paths
• Certification guidance (CISSP, CEH, Security+)
• Learning resources & labs
• Interview preparation
• Project ideas

**🔍 Tell me what you need help with!**"

/-- The reply of the `thank` branch of `getFallbackResponse`. -/
def fbThanks : String :=
  "You're welcome! I'm always here to help with your security and technology needs. Stay safe! 🔐"

/-- `getFallbackResponse` from `script.js` (lines 312-452): keyword
containment on the lower-cased user message, in a fixed else-if order. -/
def getFallbackResponse (userMessage : String) : String :=
  let msg := lowerStr userMessage
  if containsStr "hello" msg || containsStr "hi" msg || containsStr "hey" msg then
    fbGreeting
  else if containsStr "python" msg || containsStr "code" msg || containsStr "program" msg then
    fbPython
  else if containsStr "cyber" msg || containsStr "security" msg || containsStr "hack" msg then
    fbCybersecurity
  else if containsStr "ai" msg || containsStr "machine learning" msg || containsStr "neural" msg then
    fbAi
  else if containsStr "thank" msg then
    fbThanks
  else
    fbGeneral

/-! ## The client-side session store (`script.js` lines 539-615)

`chatSessions` is a JS object keyed by session id; it is modelled as a
list of sessions in key-insertion order (`Object.entries` order for
string keys), with upsert-in-place for an existing key and append for a
new one, exactly as property assignment behaves. -/

/-- A persisted chat session (`chatSessions[id]`). -/
structure ChatSession where
  id : String
  title : String
  messages : List Message
  timestampIso : String
  lastUpdated : Nat
deriving DecidableEq, Repr

/-- `chatHistory.find(msg => msg.role === 'user')?.content || 'New Chat'`:
the title before truncation. -/
def sessionTitleSource (chatHistory : List Message) : String :=
  match (chatHistory.find? (fun m => m.role == "user")).map Message.content with
  | some c => if c == "" then "New Chat" else c
  | none => "New Chat"

/-- `title.substring(0, 30) + (title.length > 30 ? '...' : '')`. -/
def sessionPreview (title : String) : String :=
  title.take 30 ++ (if 30 < title.length then "..." else "")

/-- `chatSessions[currentChatId] = {...}`: replace in place when the key
exists, append otherwise. -/
def upsertSession (store : List ChatSession) (sess : ChatSession) : List ChatSession :=
  if store.any (fun t => t.id == sess.id) then
    store.map (fun t => if t.id == sess.id then sess else t)
  else
    store ++ [sess]

/-- One step of the stable insertion sort modelling
`sessionArray.sort((a, b) => b[1].lastUpdated - a[1].lastUpdated)`:
insert `a` into an already `lastUpdated`-descending list, before the
first entry not strictly greater, so that among ties the original order
is kept — JS `Array.sort` is stable, and for a consistent comparator
stability determines the result, so any stable sort models it. -/
def insertByDesc (a : ChatSession) : List ChatSession → List ChatSession
  | [] => [a]
  | b :: t => if a.lastUpdated < b.lastUpdated then b :: insertByDesc a t else a :: b :: t

/-- The stable `lastUpdated`-descending sort of the session array. -/
def sortSessionsDesc : List ChatSession → List ChatSession
  | [] => []
  | a :: t => insertByDesc a (sortSessionsDesc t)

/-- The `if (sessionArray.length > 20) { sort; slice(20); delete }`
eviction step of `saveChatSession`. -/
def evictSessions (store : List ChatSession) : List ChatSession :=
  if store.length > 20 then
    let toDelete := (sortSessionsDesc store).drop 20
    store.filter (fun s => !(toDelete.any (fun t => t.id == s.id)))
  else store

/-- `saveChatSession` from `script.js` (lines 539-563), as a function of
the store, the current chat id, the history, and the clock readings
(`Date.now()` and `new Date().toISOString()`). -/
def saveChatSession (store : List ChatSession) (currentChatId : String)
    (chatHistory : List Message) (now : Nat) (nowIso : String) : List ChatSession :=
  if chatHistory.length == 0 then store
  else
    let title := sessionTitleSource chatHistory
    let preview := sessionPreview title
    evictSessions (upsertSession store ⟨currentChatId, preview, chatHistory, nowIso, now⟩)

/-- `chatSessions[chatId]`, as used by `loadChat`: the session stored
under an id, or undefined. -/
def loadSession (store : List ChatSession) (chatId : String) : Option ChatSession :=
  store.find? (fun s => s.id == chatId)

/-- One call to `saveChatSession`: the current chat id, history and
clock readings at that moment. -/
structure SaveEvent where
  id : String
  history : List Message
  now : Nat
  iso : String
deriving DecidableEq, Repr

/-- The session `saveChatSession` persists for a save event. -/
def mkSavedSession (e : SaveEvent) : ChatSession :=
  ⟨e.id, sessionPreview (sessionTitleSource e.history), e.history, e.iso, e.now⟩

/-- A sequence of saves starting from an empty store. -/
def runSaves (events : List SaveEvent) : List ChatSession :=
  events.foldl (fun st e => saveChatSession st e.id e.history e.now e.iso) []

/-! ## Spec-side call-count functions (for the single-upstream-call claim)

These two definitions follow the specification's words — "each chat
request performs exactly one outbound network call" when validation
passes and the quick-reply cache misses, and none otherwise — and are
compared against the call counts the handler embeddings record. -/

/-- Modelled from the spec: the number of outbound upstream calls a
Gemini-variant chat request must perform — zero when validation fails
(missing/null/non-array `messages`, or no user message with non-empty
trimmed content at the last position), one otherwise, regardless of how
the exchange turns out. -/
def specUpstreamCallsGemini : ReqBody → Nat
  | .missing => 0
  | .nullMessages => 0
  | .notArray => 0
  | .arr msgs =>
    match lastUserMessage? msgs with
    | none => 0
    | some m => if (trimChars m.content.data).isEmpty then 0 else 1

/-- Modelled from the spec, as amended: the number of outbound upstream
calls a part_002 Groq-variant chat request must perform — zero when
validation fails, when there is no user message, or when the object
lookup `cache[userMsg]` on the normalized last user message is truthy
(one of the nine mapping entries, or one of the inherited
`Object.prototype` keys `"constructor"`/`"__proto__"`), one otherwise,
regardless of how the exchange turns out. -/
def specUpstreamCallsGroqV2 : ReqBody → Nat
  | .missing => 0
  | .nullMessages => 0
  | .notArray => 0
  | .arr msgs =>
    match lastUserMessage? msgs with
    | none => 0
    | some m =>
      match groqV2Cache.lookup (quickKey m.content) with
      | some _ => 0
      | none =>
        if quickKey m.content == "constructor" || quickKey m.content == "__proto__" then 0
        else 1

/-- A concrete sequence of 25 saves of distinct sessions with strictly
increasing clocks, used to instantiate the eviction theorem. -/
def c7WitnessEvents : List SaveEvent :=
  (List.range 25).map (fun i => ⟨toString i, [⟨"user", "hello"⟩], i, "iso"⟩)

/-! # Theorems -/

set_option maxRecDepth 8000

/-! ## Replacement passes are the identity when their trigger is absent -/

theorem containsCI_cons_false {pat : List Char} {c : Char} {cs : List Char}
    (h : containsCI pat (c :: cs) = false) :
    matchesAtCI pat (c :: cs) = false ∧ containsCI pat cs = false := by
  have h' := h
  unfold containsCI at h'
  exact Bool.or_eq_false_iff.mp h'

theorem replaceCIFuel_of_not_contains (pat rep : List Char) :
    ∀ (fuel : Nat) (s : List Char), containsCI pat s = false →
      replaceCIFuel pat rep fuel s = s := by
  intro fuel
  induction fuel with
  | zero => intro s _; rfl
  | succ n ih =>
    intro s h
    cases s with
    | nil => rfl
    | cons c cs =>
      obtain ⟨h1, h2⟩ := containsCI_cons_false h
      simp [replaceCIFuel, h1, ih cs h2]

theorem replaceLineCIFuel_of_not_contains (pat rep : List Char) :
    ∀ (fuel : Nat) (s : List Char), containsCI pat s = false →
      replaceLineCIFuel pat rep fuel s = s := by
  intro fuel
  induction fuel with
  | zero => intro s _; rfl
  | succ n ih =>
    intro s h
    cases s with
    | nil => rfl
    | cons c cs =>
      obtain ⟨h1, h2⟩ := containsCI_cons_false h
      simp [replaceLineCIFuel, h1, ih cs h2]

theorem replaceGreedyCIFuel_of_not_contains (pre post rep : List Char) :
    ∀ (fuel : Nat) (s : List Char), containsCI pre s = false →
      replaceGreedyCIFuel pre post rep fuel s = s := by
  intro fuel
  induction fuel with
  | zero => intro s _; rfl
  | succ n ih =>
    intro s h
    cases s with
    | nil => rfl
    | cons c cs =>
      obtain ⟨h1, h2⟩ := containsCI_cons_false h
      simp [replaceGreedyCIFuel, h1, ih cs h2]

theorem replaceCI_id {pat rep s : String} (h : containsCI pat.data s.data = false) :
    replaceCI pat rep s = s := by
  unfold replaceCI
  rw [replaceCIFuel_of_not_contains pat.data rep.data s.data.length s.data h]

theorem replaceLineCI_id {pat rep s : String} (h : containsCI pat.data s.data = false) :
    replaceLineCI pat rep s = s := by
  unfold replaceLineCI
  rw [replaceLineCIFuel_of_not_contains pat.data rep.data s.data.length s.data h]

theorem replaceGreedyCI_id {pre post rep s : String} (h : containsCI pre.data s.data = false) :
    replaceGreedyCI pre post rep s = s := by
  unfold replaceGreedyCI
  rw [replaceGreedyCIFuel_of_not_contains pre.data post.data rep.data s.data.length s.data h]

/-- A text free of all six trigger substrings is a fixed point of the
frontend normalizer. -/
theorem cleanResponse_fixed {s : String}
    (h1 : containsCI "gemini".data s.data = false)
    (h2 : containsCI "google".data s.data = false)
    (h3 : containsCI "powered by".data s.data = false)
    (h4 : containsCI "i'm an ai".data s.data = false)
    (h5 : containsCI "as an ai assistant".data s.data = false)
    (h6 : containsCI "developed by google".data s.data = false) :
    cleanResponse s = s := by
  simp only [cleanResponse]
  rw [replaceCI_id h1, replaceCI_id h2, replaceLineCI_id h3, replaceGreedyCI_id h4,
      replaceCI_id h5, replaceCI_id h6]

/-! ## C4: normalizer idempotence -/

/-- C4 (corrected): the Response Normalizer is NOT idempotent for every
input text.  On `"gogoogleogle"` — a text containing the vendor token
`google` — one application yields `"google"` (removing the inner
occurrence splices a new one together), and a second application yields
`""`, so `normalize (normalize x) ≠ normalize x`. -/
theorem c4_counterexample :
    cleanResponse "gogoogleogle" = "google"
    ∧ cleanResponse (cleanResponse "gogoogleogle") = ""
    ∧ cleanResponse (cleanResponse "gogoogleogle") ≠ cleanResponse "gogoogleogle" := by
  refine ⟨by decide, by decide, by decide⟩

/-- C4 (amended): the Response Normalizer is idempotent on every text
whose normalized form contains no case-insensitive occurrence of any of
the six pattern triggers `gemini`, `google`, `powered by`, `i'm an ai`,
`as an ai assistant`, `developed by google` — re-running it on such an
output is a no-op.  It is not idempotent in general
(`c4_counterexample`). -/
theorem c4_normalizer_idempotent_amended (s : String)
    (h1 : containsCI "gemini".data (cleanResponse s).data = false)
    (h2 : containsCI "google".data (cleanResponse s).data = false)
    (h3 : containsCI "powered by".data (cleanResponse s).data = false)
    (h4 : containsCI "i'm an ai".data (cleanResponse s).data = false)
    (h5 : containsCI "as an ai assistant".data (cleanResponse s).data = false)
    (h6 : containsCI "developed by google".data (cleanResponse s).data = false) :
    cleanResponse (cleanResponse s) = cleanResponse s :=
  cleanResponse_fixed h1 h2 h3 h4 h5 h6

/-- Witness for `c4_normalizer_idempotent_amended` at the concrete text
`"I love Gemini"`, whose normal form `"I love Cyber AI"` is
trigger-free. -/
theorem c4_normalizer_idempotent_amended_witness :
    cleanResponse (cleanResponse "I love Gemini") = cleanResponse "I love Gemini" :=
  c4_normalizer_idempotent_amended "I love Gemini"
    (by decide) (by decide) (by decide) (by decide) (by decide) (by decide)

/-! ## C5: normalizer on the spec's concrete vendor-token input -/

/-- C5 (confirmed): on `"I'm Gemini, powered by Google's language
model."` both server normalizers produce `"I'm Cyber AI,"`: no
case-insensitive `gemini` or `google` survives, and the output states
first-person identity as the product name `Cyber AI`. -/
theorem c5_normalizer_vendor_tokens :
    cleanServerResponse "I'm Gemini, powered by Google's language model." = "I'm Cyber AI,"
    ∧ containsCI "gemini".data
        (cleanServerResponse "I'm Gemini, powered by Google's language model.").data = false
    ∧ containsCI "google".data
        (cleanServerResponse "I'm Gemini, powered by Google's language model.").data = false
    ∧ containsSub "I'm Cyber AI".data
        (cleanServerResponse "I'm Gemini, powered by Google's language model.").data = true
    ∧ cleanAIResponse "I'm Gemini, powered by Google's language model." = "I'm Cyber AI," := by
  refine ⟨by decide, by decide, by decide, by decide, by decide⟩

/-! ## C6: fallback selector keyword priority -/

/-- C6 (corrected): the Groq-variant fallback selector of `server.js`
uses sequential `if` statements, so the LAST matching keyword wins; on
`"hello, what is your name"`, which matches both the greeting and the
identity keyword, it returns the identity reply, not the greeting —
refuting the claimed greeting-before-identity priority order. -/
theorem c6_counterexample :
    containsStr "hello" "hello, what is your name" = true
    ∧ containsStr "name" "hello, what is your name" = true
    ∧ groqSimpleFallback "hello, what is your name" = "I'm Cyber AI! 😊"
    ∧ groqSimpleFallback "hello, what is your name" ≠ "Hello! 👋" := by
  refine ⟨by decide, by decide, by decide, by decide⟩

/-- C6 (amended): the frontend selector `getFallbackResponse` checks its
branches in a fixed else-if order with the greeting keywords first, so
any message containing `hello` — in particular
`"hello, what is cyber security"`, which also matches the security
keywords — resolves to the greeting reply; the same input resolves to
the greeting reply in the Groq-variant selectors as well (in the
`server.js` Groq variant because its later sequential branches do not
match, its priority order being last-match-wins). -/
theorem c6_fallback_priority_amended (msg : String)
    (h : containsStr "hello" (lowerStr msg) = true) :
    getFallbackResponse msg = fbGreeting
    ∧ getFallbackResponse "hello, what is cyber security" = fbGreeting
    ∧ containsStr "cyber" (lowerStr "hello, what is cyber security") = true
    ∧ groqSimpleFallback "hello, what is cyber security" = "Hello! 👋"
    ∧ groqV2Fallback "hello, what is cyber security" (.fail .timeout)
        = "Hello! I'm Cyber AI, created by 'The World of Cybersecurity'. 👋 How can I help you with cybersecurity today?" := by
  refine ⟨?_, by decide, by decide, by decide, by decide⟩
  simp only [getFallbackResponse]
  rw [h]
  simp

/-- Witness for `c6_fallback_priority_amended` at the spec's concrete
input. -/
theorem c6_fallback_priority_amended_witness :
    getFallbackResponse "hello, what is cyber security" = fbGreeting :=
  (c6_fallback_priority_amended "hello, what is cyber security" (by decide)).1

/-! ## C3: quick-reply cache lookup -/

/-- C3 (confirmed): on the part_002 Groq handler, whenever the
trimmed-and-lower-cased last user message hits the quick-reply cache,
the canned value is returned as the single assistant choice and zero
upstream calls are made, for every upstream outcome; and the inputs
`"Hello"`, `" hello "`, `"HELLO"` all normalize to the same key
`"hello"`, hence hit the same entry. -/
theorem c3_cache_bypass (msgs : List Message) (m : Message) (v : String) (o : GroqOutcome)
    (hm : lastUserMessage? msgs = some m)
    (hv : groqV2Cache.lookup (quickKey m.content) = some v) :
    (handleGroqV2Chat (.arr msgs) o).response = .okChoices [⟨"assistant", v⟩]
    ∧ (handleGroqV2Chat (.arr msgs) o).upstreamCalls = 0
    ∧ quickKey "Hello" = "hello" ∧ quickKey " hello " = "hello" ∧ quickKey "HELLO" = "hello" := by
  refine ⟨?_, ?_, by decide, by decide, by decide⟩ <;>
    simp only [handleGroqV2Chat, hm, hv]

/-- Witness for `c3_cache_bypass`: a one-message request `"Hello"` with
a timed-out upstream still answers the canned `hello` reply with zero
upstream calls. -/
theorem c3_cache_bypass_witness :
    (handleGroqV2Chat (.arr [⟨"user", "Hello"⟩]) (.fail .timeout)).response
        = .okChoices [⟨"assistant", "Hello! 👋 I'm Cyber AI, created by 'The World of Cybersecurity'!"⟩]
    ∧ (handleGroqV2Chat (.arr [⟨"user", "Hello"⟩]) (.fail .timeout)).upstreamCalls = 0 := by
  have h := c3_cache_bypass [⟨"user", "Hello"⟩] ⟨"user", "Hello"⟩
    "Hello! 👋 I'm Cyber AI, created by 'The World of Cybersecurity'!" (.fail .timeout)
    (by decide) (by decide)
  exact ⟨h.1, h.2.1⟩

/-! ## C1: the reply envelope of the Gemini handler -/

/-- Every branch of the Gemini catch-block fallback is a non-empty
string. -/
theorem geminiFallback_ne_empty (s : String) : geminiFallback s ≠ "" := by
  unfold geminiFallback
  split
  · decide
  · split
    · decide
    · decide

/-- C1 (counterexample): the claim quantifies over requests containing
SOME user message with non-empty trimmed content, but the handler
validates only the LAST user message: `[user "hi", user " "]` contains
a valid user message yet `POST /api/chat` answers HTTP 400, not 200. -/
theorem c1_counterexample :
    ([⟨"user", "hi"⟩, ⟨"user", " "⟩] : List Message).any
        (fun m => m.role == "user" && !(trimChars m.content.data).isEmpty) = true
    ∧ (handleGeminiChat (.arr [⟨"user", "hi"⟩, ⟨"user", " "⟩]) (.fail .timeout)).response
        = .badRequest "No valid user message found" := by
  refine ⟨by decide, by decide⟩

/-- C1 (amended): for every request whose LAST user-role message has
non-empty trimmed content, the Gemini handler replies HTTP 200 with
exactly one choice of role `assistant`; the content is non-empty on
every upstream-failure path (thrown error or unrecognized response
shape), and on the upstream-success path it equals the normalized
upstream text — which the handler does not guarantee non-empty (e.g. an
upstream text consisting only of a vendor token normalizes to `""`). -/
theorem c1_gemini_envelope (msgs : List Message) (m : Message) (o : GeminiOutcome)
    (hm : lastUserMessage? msgs = some m)
    (ht : (trimChars m.content.data).isEmpty = false) :
    ∃ c : String,
      (handleGeminiChat (.arr msgs) o).response = .okChoices [⟨"assistant", c⟩]
      ∧ ((∃ k, o = .fail k) ∨ o = .ok .unexpectedShape → c ≠ "")
      ∧ (∀ t, o = .ok (.candidatesShape t) → c = cleanServerResponse t)
      ∧ (∀ t, o = .ok (.choicesShape t) → c = cleanServerResponse t) := by
  cases o with
  | ok shape =>
    cases shape with
    | candidatesShape t =>
      refine ⟨cleanServerResponse t, ?_, ?_, ?_, ?_⟩
      · simp [handleGeminiChat, hm, ht]
      · rintro (⟨k, hk⟩ | hk) <;> exact absurd hk (by simp)
      · intro t' ht'; injection ht' with h; injection h with h; rw [h]
      · intro t' ht'; injection ht' with h; exact absurd h (by simp)
    | choicesShape t =>
      refine ⟨cleanServerResponse t, ?_, ?_, ?_, ?_⟩
      · simp [handleGeminiChat, hm, ht]
      · rintro (⟨k, hk⟩ | hk) <;> exact absurd hk (by simp)
      · intro t' ht'; injection ht' with h; exact absurd h (by simp)
      · intro t' ht'; injection ht' with h; injection h with h; rw [h]
    | unexpectedShape =>
      refine ⟨geminiFallback (firstUserContent (.arr msgs)), ?_, ?_, ?_, ?_⟩
      · simp [handleGeminiChat, hm, ht]
      · intro _; exact geminiFallback_ne_empty _
      · intro t' ht'; exact absurd ht' (by simp)
      · intro t' ht'; exact absurd ht' (by simp)
  | fail k =>
    refine ⟨geminiFallback (firstUserContent (.arr msgs)), ?_, ?_, ?_, ?_⟩
    · simp [handleGeminiChat, hm, ht]
    · intro _; exact geminiFallback_ne_empty _
    · intro t' ht'; exact absurd ht' (by simp)
    · intro t' ht'; exact absurd ht' (by simp)

/-- Witness for `c1_gemini_envelope`: the request `[user "hi"]` with a
timed-out upstream. -/
theorem c1_gemini_envelope_witness :
    ∃ c : String,
      (handleGeminiChat (.arr [⟨"user", "hi"⟩]) (.fail .timeout)).response
          = .okChoices [⟨"assistant", c⟩]
      ∧ ((∃ k, (GeminiOutcome.fail .timeout) = .fail k)
            ∨ (GeminiOutcome.fail .timeout) = .ok .unexpectedShape → c ≠ "")
      ∧ (∀ t, (GeminiOutcome.fail .timeout) = .ok (.candidatesShape t) → c = cleanServerResponse t)
      ∧ (∀ t, (GeminiOutcome.fail .timeout) = .ok (.choicesShape t) → c = cleanServerResponse t) :=
  c1_gemini_envelope [⟨"user", "hi"⟩] ⟨"user", "hi"⟩ (.fail .timeout) (by decide) (by decide)

/-! ## C2: validation behaviour across the two `server.js` variants -/

/-- C2 (counterexample): the Groq variant of `server.js` does NOT return
HTTP 400 for a request with no user-role message — `messages: []`
passes its only guard and is answered HTTP 200 with a canned greeting
(and zero upstream calls). -/
theorem c2_counterexample :
    (handleGroqSimpleChat true (.arr []) (.fail .timeout)).response
        = .okChoices [⟨"assistant", "Hello! I'm Cyber AI. How can I help you?"⟩]
    ∧ isBadRequest (handleGroqSimpleChat true (.arr []) (.fail .timeout)).response = false
    ∧ (handleGroqSimpleChat true (.arr []) (.fail .timeout)).upstreamCalls = 0 := by
  refine ⟨by decide, by decide, by decide⟩

/-- C2 (amended): the Gemini variant of `server.js` answers HTTP 400
when `messages` is missing, `null`, not an array, or contains no
user-role message with non-empty trimmed content (its check inspects
the last user message, which the hypothesis covers), with no upstream
call.  The Groq variant of `server.js` never answers 400 on these
inputs: a missing or `null` `messages` throws at `messages.filter` and
the catch block's optional chain yields `""`, producing the 200
catch-all fallback; any other non-array `messages` makes the catch
block itself throw at `messages?.find` (a `TypeError`), so no reply is
sent at all; and an array with no user message is answered with a 200
canned greeting. -/
theorem c2_validation_amended (msgs : List Message) (o : GeminiOutcome) (o' : GroqOutcome)
    (key : Bool) :
    ((handleGeminiChat .missing o).response = .badRequest "Messages array is required")
    ∧ ((handleGeminiChat .nullMessages o).response = .badRequest "Messages array is required")
    ∧ ((handleGeminiChat .notArray o).response = .badRequest "Messages array is required")
    ∧ ((∀ m ∈ msgs, m.role = "user" → (trimChars m.content.data).isEmpty = true) →
        (handleGeminiChat (.arr msgs) o).response = .badRequest "No valid user message found"
        ∧ (handleGeminiChat (.arr msgs) o).upstreamCalls = 0)
    ∧ ((handleGroqSimpleChat key .missing o').response
          = .okChoices [⟨"assistant", "I'm Cyber AI! How can I help?"⟩])
    ∧ ((handleGroqSimpleChat key .nullMessages o').response
          = .okChoices [⟨"assistant", "I'm Cyber AI! How can I help?"⟩])
    ∧ ((handleGroqSimpleChat key .notArray o').response = .noReply)
    ∧ (isBadRequest (handleGroqSimpleChat key .missing o').response = false)
    ∧ (isBadRequest (handleGroqSimpleChat key .notArray o').response = false)
    ∧ (lastUserMessage? msgs = none →
        (handleGroqSimpleChat key (.arr msgs) o').response
          = .okChoices [⟨"assistant", "Hello! I'm Cyber AI. How can I help you?"⟩]) := by
  refine ⟨rfl, rfl, rfl, ?_, rfl, rfl, rfl, rfl, rfl, ?_⟩
  · intro hall
    rcases h : lastUserMessage? msgs with _ | m
    · constructor <;> simp [handleGeminiChat, h]
    · have hmem : m ∈ userMessagesOf msgs := List.mem_of_mem_getLast? h
      have hrole : (m.role == "user") = true := (List.mem_filter.mp hmem).2
      have htrim : (trimChars m.content.data).isEmpty = true :=
        hall m (List.mem_filter.mp hmem).1 (by simpa using hrole)
      constructor <;> simp [handleGeminiChat, h, htrim]
  · intro h
    simp [handleGroqSimpleChat, h]

/-- Witness for `c2_validation_amended` at `msgs = [assistant-only]`. -/
theorem c2_validation_amended_witness :
    (handleGeminiChat (.arr [⟨"assistant", "hi"⟩]) (.fail .timeout)).response
        = .badRequest "No valid user message found"
    ∧ (handleGroqSimpleChat true (.arr [⟨"assistant", "hi"⟩]) (.fail .timeout)).response
        = .okChoices [⟨"assistant", "Hello! I'm Cyber AI. How can I help you?"⟩] := by
  have h := c2_validation_amended [⟨"assistant", "hi"⟩] (.fail .timeout) (.fail .timeout) true
  exact ⟨(h.2.2.2.1 (by decide)).1, h.2.2.2.2.2.2.2.2.2 (by decide)⟩

/-! ## C9: catch fallback keyed on the first user message, upstream on the last -/

/-- C9 (confirmed): on the Gemini `server.js` handler, the upstream
prompt embeds the LAST user message while the catch-block fallback is
selected from the FIRST user message; when the two contents differ the
failure-path keyword match therefore runs on a different message than
the one the success path answers. -/
theorem c9_fallback_first_vs_last (msgs : List Message) (m : Message) (k : FailureKind)
    (hm : lastUserMessage? msgs = some m)
    (ht : (trimChars m.content.data).isEmpty = false)
    (hne : firstUserContent (.arr msgs) ≠ m.content) :
    (handleGeminiChat (.arr msgs) (.fail k)).sentPrompt = some (geminiSystemPrompt m.content)
    ∧ (handleGeminiChat (.arr msgs) (.fail k)).response
        = .okChoices [⟨"assistant", geminiFallback (firstUserContent (.arr msgs))⟩]
    ∧ firstUserContent (.arr msgs) ≠ m.content := by
  refine ⟨?_, ?_, hne⟩ <;> simp [handleGeminiChat, hm, ht]

/-- Witness for `c9_fallback_first_vs_last`: two user messages with
different contents. -/
theorem c9_fallback_first_vs_last_witness :
    (handleGeminiChat (.arr [⟨"user", "what is your name"⟩, ⟨"user", "hello there"⟩])
        (.fail .timeout)).sentPrompt = some (geminiSystemPrompt "hello there")
    ∧ (handleGeminiChat (.arr [⟨"user", "what is your name"⟩, ⟨"user", "hello there"⟩])
        (.fail .timeout)).response
        = .okChoices [⟨"assistant",
            geminiFallback (firstUserContent
              (.arr [⟨"user", "what is your name"⟩, ⟨"user", "hello there"⟩]))⟩]
    ∧ firstUserContent (.arr [⟨"user", "what is your name"⟩, ⟨"user", "hello there"⟩])
        ≠ "hello there" := by
  have h := c9_fallback_first_vs_last
    [⟨"user", "what is your name"⟩, ⟨"user", "hello there"⟩] ⟨"user", "hello there"⟩
    .timeout (by decide) (by decide) (by decide)
  exact h

/-! ## C8: upstream call counts -/

/-- C8 (counterexample): the part_002 cache check is
`if (cache[userMsg])` on a plain object literal, so the lookup walks
the prototype chain: a last user message `"constructor"` — which is
NOT one of the nine quick-reply entries — finds the truthy inherited
`Object.prototype.constructor` and the handler returns early with ZERO
upstream calls, refuting "exactly one outbound call when validation
passes and the quick-reply cache misses". -/
theorem c8_counterexample :
    groqV2Cache.lookup (quickKey "constructor") = none
    ∧ (handleGroqV2Chat (.arr [⟨"user", "constructor"⟩]) (.ok (.contentShape "sure"))).upstreamCalls
        = 0
    ∧ (handleGroqV2Chat (.arr [⟨"user", "constructor"⟩]) (.ok (.contentShape "sure"))).response
        = .okNonStringChoice "constructor" := by
  refine ⟨by decide, by decide, by decide⟩

/-- C8 (amended): for every request body and every upstream outcome,
the number of outbound upstream calls the Gemini handler and the
part_002 Groq handler perform equals the amended spec's count: zero on
validation failure, on a missing user message, and whenever the object
lookup `cache[userMsg]` is truthy — the nine mapping entries plus the
inherited `Object.prototype` keys `"constructor"` and `"__proto__"` —
and exactly one otherwise, the same count for success, timeout, auth
error, rate limiting, server error and malformed response, so no
failure ever triggers a second (retry) call. -/
theorem c8_single_upstream_call (body : ReqBody) (o₁ : GeminiOutcome) (o₂ : GroqOutcome) :
    (handleGeminiChat body o₁).upstreamCalls = specUpstreamCallsGemini body
    ∧ (handleGroqV2Chat body o₂).upstreamCalls = specUpstreamCallsGroqV2 body
    ∧ specUpstreamCallsGemini body ≤ 1 ∧ specUpstreamCallsGroqV2 body ≤ 1 := by
  rcases body with _ | _ | _ | msgs
  · exact ⟨rfl, rfl, by decide, by decide⟩
  · exact ⟨rfl, rfl, by decide, by decide⟩
  · exact ⟨rfl, rfl, by decide, by decide⟩
  · rcases h : lastUserMessage? msgs with _ | m
    · refine ⟨?_, ?_, ?_, ?_⟩ <;>
        simp [handleGeminiChat, handleGroqV2Chat, specUpstreamCallsGemini,
              specUpstreamCallsGroqV2, h]
    · refine ⟨?_, ?_, ?_, ?_⟩
      · rcases ht : (trimChars m.content.data).isEmpty
        · rcases o₁ with s | k
          · rcases s <;>
              simp [handleGeminiChat, specUpstreamCallsGemini, h, ht]
          · simp [handleGeminiChat, specUpstreamCallsGemini, h, ht]
        · simp [handleGeminiChat, specUpstreamCallsGemini, h, ht]
      · rcases hc : groqV2Cache.lookup (quickKey m.content) with _ | v
        · rcases hp : (quickKey m.content == "constructor" || quickKey m.content == "__proto__")
          · rcases o₂ with s | k
            · rcases s with s | _
              · rcases hs : s.isEmpty <;>
                  simp [handleGroqV2Chat, specUpstreamCallsGroqV2, h, hc, hp, hs]
              · simp [handleGroqV2Chat, specUpstreamCallsGroqV2, h, hc, hp]
            · simp [handleGroqV2Chat, specUpstreamCallsGroqV2, h, hc, hp]
          · simp [handleGroqV2Chat, specUpstreamCallsGroqV2, h, hc, hp]
        · simp [handleGroqV2Chat, specUpstreamCallsGroqV2, h, hc]
      · simp only [specUpstreamCallsGemini, h]
        split <;> omega
      · rcases hc : groqV2Cache.lookup (quickKey m.content) with _ | v
        · rcases hp : (quickKey m.content == "constructor" || quickKey m.content == "__proto__") <;>
            simp [specUpstreamCallsGroqV2, h, hc, hp]
        · simp [specUpstreamCallsGroqV2, h, hc]

/-! ## Session store lemmas -/

theorem insertByDesc_all_lt {a : ChatSession} :
    ∀ {l : List ChatSession}, (∀ b ∈ l, a.lastUpdated < b.lastUpdated) →
      insertByDesc a l = l ++ [a] := by
  intro l
  induction l with
  | nil => intro _; rfl
  | cons b t ih =>
    intro h
    have hb : a.lastUpdated < b.lastUpdated := h b (by simp)
    simp only [insertByDesc, if_pos hb, List.cons_append]
    rw [ih (fun c hc => h c (by simp [hc]))]

theorem sortSessionsDesc_of_inc :
    ∀ {l : List ChatSession},
      l.Pairwise (fun x y => x.lastUpdated < y.lastUpdated) →
      sortSessionsDesc l = l.reverse := by
  intro l
  induction l with
  | nil => intro _; rfl
  | cons a t ih =>
    intro h
    rcases List.pairwise_cons.mp h with ⟨h1, h2⟩
    simp only [sortSessionsDesc]
    rw [ih h2, insertByDesc_all_lt (fun b hb => h1 b (List.mem_reverse.mp hb)),
        List.reverse_cons]

theorem evictSessions_of_21 {l : List ChatSession} (hlen : l.length = 21)
    (hsort : l.Pairwise (fun x y => x.lastUpdated < y.lastUpdated))
    (hids : (l.map ChatSession.id).Nodup) :
    evictSessions l = l.tail := by
  rcases l with _ | ⟨a, t⟩
  · simp at hlen
  have ht : t.length = 20 := by simpa using hlen
  have hcond : (a :: t).length > 20 := by simp [ht]
  rw [evictSessions, if_pos hcond]
  show (a :: t).filter
      (fun s => !(((sortSessionsDesc (a :: t)).drop 20).any (fun d => d.id == s.id)))
    = (a :: t).tail
  rw [sortSessionsDesc_of_inc hsort, List.reverse_cons]
  have htr : t.reverse.length = 20 := by simpa using ht
  rw [← htr, List.drop_left]
  have hnotin : a.id ∉ t.map ChatSession.id := by
    rw [List.map_cons] at hids
    exact (List.nodup_cons.mp hids).1
  rw [List.filter_cons, if_neg (by simp)]
  show t.filter (fun s => !([a].any (fun d => d.id == s.id))) = (a :: t).tail
  have hfe : t.filter (fun s => !([a].any (fun d => d.id == s.id))) = t := by
    apply List.filter_eq_self.mpr
    intro s hs
    have : a.id ≠ s.id := fun he => hnotin (he ▸ List.mem_map_of_mem ChatSession.id hs)
    simp [this]
  rw [hfe]
  rfl

theorem upsertSession_append {store : List ChatSession} {sess : ChatSession}
    (h : store.any (fun t => t.id == sess.id) = false) :
    upsertSession store sess = store ++ [sess] := by
  simp [upsertSession, h]

theorem saveChatSession_of_ne_nil {store : List ChatSession} {id0 : String}
    {hist : List Message} {now : Nat} {iso : String} (h : hist ≠ []) :
    saveChatSession store id0 hist now iso
      = evictSessions (upsertSession store
          ⟨id0, sessionPreview (sessionTitleSource hist), hist, iso, now⟩) := by
  have hguard : (hist.length == 0) = false := by
    simp only [beq_eq_false_iff_ne, ne_eq, List.length_eq_zero]
    exact h
  simp only [saveChatSession, hguard, Bool.false_eq_true, if_false]

/-- The store after a sequence of saves with pairwise-distinct ids,
strictly increasing clocks and non-empty histories: exactly the last
(at most) 20 sessions, in save order. -/
theorem runSaves_spec :
    ∀ (events : List SaveEvent),
      (events.map SaveEvent.id).Nodup →
      (events.map SaveEvent.now).Pairwise (· < ·) →
      (∀ e ∈ events, e.history ≠ []) →
      runSaves events = (events.drop (events.length - 20)).map mkSavedSession := by
  intro events
  induction events using List.reverseRecOn with
  | nil => intro _ _ _; rfl
  | append_singleton es e ih =>
    intro hids hnows hhist
    rw [List.map_append] at hids hnows
    have hids' : (es.map SaveEvent.id).Nodup := (List.nodup_append.mp hids).1
    have hnotin : e.id ∉ es.map SaveEvent.id := by
      intro hmem
      exact (List.nodup_append.mp hids).2.2 hmem (by simp)
    have hnows' : (es.map SaveEvent.now).Pairwise (· < ·) :=
      (List.pairwise_append.mp hnows).1
    have hlt : ∀ x ∈ es, x.now < e.now := by
      intro x hx
      exact (List.pairwise_append.mp hnows).2.2 x.now (List.mem_map_of_mem _ hx) e.now (by simp)
    have hhist' : ∀ x ∈ es, x.history ≠ [] := fun x hx => hhist x (by simp [hx])
    have hh : e.history ≠ [] := hhist e (by simp)
    have step : runSaves (es ++ [e])
        = saveChatSession (runSaves es) e.id e.history e.now e.iso := by
      simp [runSaves, List.foldl_append]
    rw [step, ih hids' hnows' hhist', saveChatSession_of_ne_nil hh]
    have hany : ((es.drop (es.length - 20)).map mkSavedSession).any
        (fun t => t.id == e.id) = false := by
      rw [List.any_eq_false]
      intro s hs
      obtain ⟨x, hx, rfl⟩ := List.mem_map.mp hs
      have hxid : x.id ≠ e.id := by
        intro he
        exact hnotin (he ▸ List.mem_map_of_mem _ (List.mem_of_mem_drop hx))
      simp [mkSavedSession, hxid]
    rw [show (⟨e.id, sessionPreview (sessionTitleSource e.history), e.history, e.iso, e.now⟩
          : ChatSession) = mkSavedSession e from rfl,
        upsertSession_append hany]
    rcases Nat.lt_or_ge es.length 20 with hsmall | hbig
    · have hk : es.length - 20 = 0 := by omega
      have hk1 : (es ++ [e]).length - 20 = 0 := by simp [List.length_append]; omega
      rw [hk, hk1, List.drop_zero, List.drop_zero, List.map_append]
      rw [evictSessions, if_neg (by simp; omega)]
      simp
    · have hSlen : ((es.drop (es.length - 20)).map mkSavedSession).length = 20 := by
        rw [List.length_map, List.length_drop]
        omega
      have hlen21 : ((es.drop (es.length - 20)).map mkSavedSession ++ [mkSavedSession e]).length
          = 21 := by
        rw [List.length_append, hSlen, List.length_singleton]
      have happ : (es.drop (es.length - 20)).map mkSavedSession ++ [mkSavedSession e]
          = ((es.drop (es.length - 20)) ++ [e]).map mkSavedSession := by
        simp
      have hpair : ((es.drop (es.length - 20)).map mkSavedSession
          ++ [mkSavedSession e]).Pairwise (fun x y => x.lastUpdated < y.lastUpdated) := by
        rw [happ, List.pairwise_map]
        rw [List.pairwise_append]
        refine ⟨?_, by simp, ?_⟩
        · have := List.pairwise_map.mp hnows'
          exact this.sublist (List.drop_sublist _ _)
        · intro x hx y hy
          rw [List.mem_singleton] at hy
          subst hy
          exact hlt x (List.mem_of_mem_drop hx)
      have hidsS : (((es.drop (es.length - 20)).map mkSavedSession
          ++ [mkSavedSession e]).map ChatSession.id).Nodup := by
        rw [happ, List.map_map]
        rw [show (ChatSession.id ∘ mkSavedSession) = SaveEvent.id from funext (fun _ => rfl)]
        rw [List.map_append, List.nodup_append]
        refine ⟨?_, by simp, ?_⟩
        · rw [List.map_drop]
          exact hids'.sublist (List.drop_sublist _ _)
        · intro x hx
          rw [List.map_drop] at hx
          have hx' : x ∈ es.map SaveEvent.id := List.mem_of_mem_drop hx
          simp only [List.map_cons, List.map_nil, List.mem_singleton]
          intro he
          exact hnotin (he ▸ hx')
      rw [evictSessions_of_21 hlen21 hpair hidsS]
      have hne : (es.drop (es.length - 20)).map mkSavedSession ≠ [] := by
        intro he
        rw [he] at hSlen
        simp at hSlen
      rw [List.tail_append_of_ne_nil hne, ← List.map_tail, List.tail_drop]
      have hk1 : (es ++ [e]).length - 20 = (es.length - 20) + 1 := by
        simp only [List.length_append, List.length_singleton]
        omega
      rw [hk1, List.drop_append_of_le_length (by omega), List.map_append]
      simp

/-! ## C7: session-store eviction to the 20 most recent sessions -/

/-- C7 (confirmed): for every sequence of 25 saves of distinct sessions
(pairwise-distinct ids, strictly increasing `lastUpdated` clocks,
non-empty histories) starting from an empty store, exactly the 20
most-recently-updated sessions remain — the store's ids are precisely
the last 20 saved ids — and loading any of the first 5 ids returns
undefined while loading any of the last 20 succeeds. -/
theorem c7_session_eviction (events : List SaveEvent)
    (hlen : events.length = 25)
    (hids : (events.map SaveEvent.id).Nodup)
    (hnows : (events.map SaveEvent.now).Pairwise (· < ·))
    (hhist : ∀ e ∈ events, e.history ≠ []) :
    (runSaves events).map ChatSession.id = (events.map SaveEvent.id).drop 5
    ∧ (∀ idOld ∈ (events.map SaveEvent.id).take 5, loadSession (runSaves events) idOld = none)
    ∧ (∀ idNew ∈ (events.map SaveEvent.id).drop 5,
        (loadSession (runSaves events) idNew).isSome = true) := by
  have hrun : runSaves events = (events.drop 5).map mkSavedSession := by
    rw [runSaves_spec events hids hnows hhist, hlen]
  have hid_eq : (runSaves events).map ChatSession.id = (events.map SaveEvent.id).drop 5 := by
    rw [hrun, List.map_map,
        show (ChatSession.id ∘ mkSavedSession) = SaveEvent.id from funext (fun _ => rfl),
        List.map_drop]
  refine ⟨hid_eq, ?_, ?_⟩
  · intro idOld hmemOld
    unfold loadSession
    rw [List.find?_eq_none]
    intro s hs
    have hsid : s.id ∈ (events.map SaveEvent.id).drop 5 := by
      rw [← hid_eq]
      exact List.mem_map_of_mem _ hs
    have hnodup : ((events.map SaveEvent.id).take 5
        ++ (events.map SaveEvent.id).drop 5).Nodup := by
      rw [List.take_append_drop]
      exact hids
    have hdisj := (List.nodup_append.mp hnodup).2.2
    have hne : idOld ≠ s.id := fun he => hdisj hmemOld (he ▸ hsid)
    simp only [beq_eq_false_iff_ne, ne_eq, Bool.not_eq_true]
    exact fun he => hne he.symm
  · intro idNew hmemNew
    unfold loadSession
    rw [List.find?_isSome]
    rw [← hid_eq] at hmemNew
    obtain ⟨s, hs, hsid⟩ := List.mem_map.mp hmemNew
    exact ⟨s, hs, by simp [hsid]⟩

/-- Witness for `c7_session_eviction`: 25 concrete saves with ids
`"0"…"24"` and clocks `0…24`. -/
theorem c7_session_eviction_witness :
    (runSaves c7WitnessEvents).map ChatSession.id = (c7WitnessEvents.map SaveEvent.id).drop 5
    ∧ (∀ idOld ∈ (c7WitnessEvents.map SaveEvent.id).take 5,
        loadSession (runSaves c7WitnessEvents) idOld = none)
    ∧ (∀ idNew ∈ (c7WitnessEvents.map SaveEvent.id).drop 5,
        (loadSession (runSaves c7WitnessEvents) idNew).isSome = true) :=
  c7_session_eviction c7WitnessEvents (by decide) (by decide) (by decide) (by decide)

/-! ## C10: the empty-history guard and the derived title -/

/-- C10 (counterexample): a saved history whose first user message has
EMPTY content is persisted with title `"New Chat"`, not with the first
30 characters of that message (which would be `""`): the `|| 'New
Chat'` default also fires on the empty string, refuting the title
clause as universally stated. -/
theorem c10_counterexample :
    saveChatSession [] "chat1" [⟨"user", ""⟩] 1 "iso1"
        = [⟨"chat1", "New Chat", [⟨"user", ""⟩], "iso1", 1⟩]
    ∧ (loadSession (saveChatSession [] "chat1" [⟨"user", ""⟩] 1 "iso1") "chat1").map
        ChatSession.title = some "New Chat"
    ∧ some "New Chat" ≠ some (String.take "" 30 ++ "") := by
  refine ⟨by decide, by decide, by decide⟩

/-- C10 (amended): `saveChatSession` leaves the store unchanged on an
empty history, so a store of sessions with non-empty message lists
stays that way; the persisted title is the first 30 characters of the
first user message, with `"..."` appended exactly when that message
exceeds 30 characters, PROVIDED the history has a user message with
non-empty content — otherwise the title is `"New Chat"`. -/
theorem c10_save_guard_amended (store : List ChatSession) (id0 : String)
    (hist : List Message) (now : Nat) (iso : String) :
    (hist = [] → saveChatSession store id0 hist now iso = store)
    ∧ ((∀ s ∈ store, s.messages ≠ []) →
        ∀ s ∈ saveChatSession store id0 hist now iso, s.messages ≠ [])
    ∧ (∀ m, firstUserMessage? hist = some m → m.content ≠ "" →
        sessionPreview (sessionTitleSource hist)
          = m.content.take 30 ++ (if 30 < m.content.length then "..." else ""))
    ∧ (firstUserMessage? hist = none → sessionTitleSource hist = "New Chat")
    ∧ (∀ m, firstUserMessage? hist = some m → m.content = "" →
        sessionTitleSource hist = "New Chat")
    ∧ (hist ≠ [] → saveChatSession store id0 hist now iso
        = evictSessions (upsertSession store
            ⟨id0, sessionPreview (sessionTitleSource hist), hist, iso, now⟩)) := by
  refine ⟨?_, ?_, ?_, ?_, ?_, fun h => saveChatSession_of_ne_nil h⟩
  · intro h
    subst h
    rfl
  · intro hstore s hs
    rcases eq_or_ne hist [] with he | he
    · subst he
      exact hstore s hs
    · rw [saveChatSession_of_ne_nil he] at hs
      have hs1 : s ∈ upsertSession store
          ⟨id0, sessionPreview (sessionTitleSource hist), hist, iso, now⟩ := by
        revert hs
        unfold evictSessions
        split
        · intro hs
          exact (List.mem_filter.mp hs).1
        · intro hs
          exact hs
      revert hs1
      unfold upsertSession
      split
      · intro hs1
        obtain ⟨t, htmem, hteq⟩ := List.mem_map.mp hs1
        by_cases hid : (t.id == id0) = true
        · rw [if_pos hid] at hteq
          subst hteq
          exact he
        · rw [if_neg hid] at hteq
          subst hteq
          exact hstore t htmem
      · intro hs1
        rcases List.mem_append.mp hs1 with hmem | hmem
        · exact hstore s hmem
        · rw [List.mem_singleton] at hmem
          subst hmem
          exact he
  · intro m hm hne
    unfold firstUserMessage? at hm
    have htitle : sessionTitleSource hist = m.content := by
      simp [sessionTitleSource, hm, hne]
    rw [htitle]
    rfl
  · intro hm
    unfold firstUserMessage? at hm
    simp [sessionTitleSource, hm]
  · intro m hm hme
    unfold firstUserMessage? at hm
    simp [sessionTitleSource, hm, hme]

/-- Witness for `c10_save_guard_amended`: a 56-character first user
message is persisted with its 30-character prefix plus `"..."`. -/
theorem c10_save_guard_amended_witness :
    sessionPreview (sessionTitleSource
        [⟨"user", "question about firewalls and intrusion detection systems"⟩])
      = ("question about firewalls and intrusion detection systems" : String).take 30
        ++ (if 30 < ("question about firewalls and intrusion detection systems" : String).length
            then "..." else "") :=
  (c10_save_guard_amended [] "c"
      [⟨"user", "question about firewalls and intrusion detection systems"⟩] 1 "t").2.2.1
    ⟨"user", "question about firewalls and intrusion detection systems"⟩ (by decide) (by decide)
